import Mathlib

/-!
Shallow embedding of `src/sambacc/config.py` (configuration model of the
sambacc repository) and proofs about its behaviour.

JSON values are modelled by the inductive `JValue`; Python dicts appear as
association lists in insertion order (CPython dicts preserve insertion
order, and `dict.update` replaces values of existing keys in place while
appending new keys).  Python exceptions are modelled by the error type
`PyErr` carried in `Except`; generator functions are materialised into the
list of values they yield, erroring if any step of the iteration raises.
-/

/-- A JSON value as produced by `json.load`: JSON objects become Python
dicts (modelled as insertion-ordered association lists), arrays become
lists, `null` becomes `None`. -/
inductive JValue where
  | null
  | bool (b : Bool)
  | int (n : Int)
  | str (s : String)
  | arr (xs : List JValue)
  | obj (kvs : List (String × JValue))

/-- Errors raised by the Python code.  `invalidConfig` and `invalidValue`
are both `ValueError` in the source, distinguished here by the site that
raises them (the version check in `GlobalConfig.load`, respectively the
uid/gid integrality check); `keyError` is a `KeyError` from a dict
subscript; `attributeError` is an `AttributeError` from accessing an
attribute an object does not have; `typeError` covers subscripting or
iterating a non-container. -/
inductive PyErr where
  | invalidConfig (msg : String)
  | keyError (k : String)
  | invalidValue (msg : String)
  | attributeError (name : String)
  | typeError (msg : String)
  deriving DecidableEq, Repr

mutual

/-- Python `==` on JSON-derived values.  Structural equality, except that
`bool` compares equal to `int` the way Python compares `True == 1` and
`False == 0` (Python's `bool` is a subclass of `int`). -/
def jeq : JValue → JValue → Bool
  | .null, .null => true
  | .bool a, .bool b => a == b
  | .bool a, .int b => (if a then (1 : Int) else 0) == b
  | .int a, .bool b => a == (if b then (1 : Int) else 0)
  | .int a, .int b => a == b
  | .str a, .str b => a == b
  | .arr xs, .arr ys => jeqList xs ys
  | .obj xs, .obj ys => jeqObj xs ys
  | _, _ => false

def jeqList : List JValue → List JValue → Bool
  | [], [] => true
  | x :: xs, y :: ys => jeq x y && jeqList xs ys
  | _, _ => false

def jeqObj : List (String × JValue) → List (String × JValue) → Bool
  | [], [] => true
  | x :: xs, y :: ys => x.1 == y.1 && jeq x.2 y.2 && jeqObj xs ys
  | _, _ => false
end

/-- Lookup in a Python dict with `String` keys (modelled as an association
list): the value of the first entry whose key matches, if any. -/
def dget : List (String × JValue) → String → Option JValue
  | [], _ => none
  | (k, v) :: rest, key => if k == key then some v else dget rest key

/-- Python `d.get(key, default)` on a dict with `String` keys. -/
def dGetD (d : List (String × JValue)) (key : String) (dflt : JValue) : JValue :=
  match dget d key with
  | some v => v
  | none => dflt

/-- Python `d[key] = v` on a dict with `String` keys: replace in place if
the key exists, else append (insertion order semantics of CPython dicts). -/
def dSet : List (String × JValue) → String → JValue → List (String × JValue)
  | [], key, v => [(key, v)]
  | (k, w) :: rest, key, v =>
    if k == key then (key, v) :: rest else (k, w) :: dSet rest key v

/-- Python `d.update(new)`: each key of `new`, in order, is set into `d`. -/
def dUpdate (d new : List (String × JValue)) : List (String × JValue) :=
  new.foldl (fun acc kv => dSet acc kv.1 kv.2) d

/-- Python truthiness of a JSON-derived value: `None`, `False`, `0`, `""`,
`[]` and `{}` are falsy, everything else truthy. -/
def truthy : JValue → Bool
  | .null => false
  | .bool b => b
  | .int n => n != 0
  | .str s => !s.isEmpty
  | .arr xs => !xs.isEmpty
  | .obj kvs => !kvs.isEmpty

/-- Python `str(v)` for the scalar JSON-derived values the code applies it
to (ids and password fields).  The container cases never arise in the
properties proved below; they are given fixed renderings rather than a
full Python `repr`. -/
def pyStr : JValue → String
  | .null => "None"
  | .bool true => "True"
  | .bool false => "False"
  | .int n => toString n
  | .str s => s
  | .arr _ => "<list>"
  | .obj _ => "<dict>"

/-- Python `v[key]` with a string literal key: `KeyError` if the key is
absent from the object, `TypeError` if `v` is not a dict. -/
def pyIndex (v : JValue) (key : String) : Except PyErr JValue :=
  match v with
  | .obj kvs =>
    match dget kvs key with
    | some x => .ok x
    | none => .error (.keyError key)
  | _ => .error (.typeError "object is not subscriptable")

/-- Python `d[key]` where `d` is a dict held directly (such as
`GlobalConfig.data`): `KeyError` if absent. -/
def pyIndexD (d : List (String × JValue)) (key : String) : Except PyErr JValue :=
  match dget d key with
  | some x => .ok x
  | none => .error (.keyError key)

/-- Python `d[key]` with a dynamically computed key.  JSON objects only
have string keys, so a non-string key (that is not a bool/int, which can
never equal a string either) is never present and raises `KeyError`. -/
def pyIndexJ (v : JValue) (key : JValue) : Except PyErr JValue :=
  match v with
  | .obj kvs =>
    match key with
    | .str s =>
      match dget kvs s with
      | some x => .ok x
      | none => .error (.keyError s)
    | _ => .error (.keyError "nonstring key")
  | _ => .error (.typeError "object is not subscriptable")

/-- Python `v.get(key, dflt)` on a JSON-derived value: works when `v` is a
dict, raises `AttributeError` otherwise (only dicts have `.get`). -/
def pyObjGet (v : JValue) (key : String) (dflt : JValue) : Except PyErr JValue :=
  match v with
  | .obj kvs => .ok (dGetD kvs key dflt)
  | _ => .error (.attributeError "get")

/-- Python iteration over a JSON-derived value, as a list of the values
produced: a list yields its elements, a dict yields its keys, a string
yields its one-character substrings, anything else raises `TypeError`. -/
def pyIter : JValue → Except PyErr (List JValue)
  | .arr xs => .ok xs
  | .obj kvs => .ok (kvs.map (fun kv => .str kv.1))
  | .str s => .ok (s.toList.map (fun c => .str (String.mk [c])))
  | _ => .error (.typeError "object is not iterable")

/-- Python `v.items()` on a JSON-derived value: the key/value pairs when
`v` is a dict, `AttributeError` otherwise. -/
def pyItems (v : JValue) : Except PyErr (List (String × JValue)) :=
  match v with
  | .obj kvs => .ok kvs
  | _ => .error (.attributeError "items")

/-- The `_VALID_VERSIONS` list of `config.py`. -/
def _VALID_VERSIONS : List String := ["v0"]

/-- The aggregate store: `GlobalConfig` holds the merged `data` dict. -/
structure GlobalConfig where
  data : List (String × JValue)

/-- `GlobalConfig.load`, following the method body statement by
statement.  `data.get("samba-container-config")` returns `None` when the
key is absent (or its value is JSON `null`); the two version checks run
and raise before any mutation, and `self.data.update(data)` is the final
statement, executed only when validation passes.  The first component of
the result is the store after the call (reflecting every mutation made
before a raise — here there are none), the second the raised error, if
any. -/
def GlobalConfig.loadState (gc : GlobalConfig) (doc : List (String × JValue)) :
    GlobalConfig × Option PyErr :=
  match dGetD doc "samba-container-config" .null with
  | .null => (gc, some (.invalidConfig "no samba-container-config key"))
  | .str s =>
    if _VALID_VERSIONS.contains s
    then (⟨dUpdate gc.data doc⟩, none)
    else (gc, some (.invalidConfig "unknown version"))
  | _ => (gc, some (.invalidConfig "unknown version"))

/-- `GlobalConfig.load` as a fallible function from the old store to the
new one. -/
def GlobalConfig.load (gc : GlobalConfig) (doc : List (String × JValue)) :
    Except PyErr GlobalConfig :=
  match gc.loadState doc with
  | (gc2, none) => .ok gc2
  | (_, some e) => .error e

/-- An instance view: `InstanceConfig` holds the aggregate plus the
instance document `iconfig` selected by `GlobalConfig.get`. -/
structure InstanceConfig where
  gconfig : GlobalConfig
  iconfig : JValue

/-- `GlobalConfig.get`: `self.data["configs"][ident]`, wrapped into an
`InstanceConfig`. -/
def GlobalConfig.get (gc : GlobalConfig) (ident : String) :
    Except PyErr InstanceConfig := do
  let configs ← pyIndexD gc.data "configs"
  let iconfig ← pyIndex configs ident
  .ok ⟨gc, iconfig⟩

/-- `InstanceConfig.uid_base`: constant 1000. -/
def InstanceConfig.uid_base (_ic : InstanceConfig) : Int := 1000

/-- `InstanceConfig.gid_base`: constant 1000. -/
def InstanceConfig.gid_base (_ic : InstanceConfig) : Int := 1000

/-- The body of the loop in `InstanceConfig.global_options` for one
global-section name: `self.gconfig.data["globals"][gname]`, then the
pairs of `global_section.get("options", {})`. -/
def sectionOptions (gc : GlobalConfig) (gname : JValue) :
    Except PyErr (List (String × JValue)) := do
  let globalsV ← pyIndexD gc.data "globals"
  let gsec ← pyIndexJ globalsV gname
  let opts ← pyObjGet gsec "options" (.obj [])
  pyItems opts

/-- The full `for gname in gnames` loop of `global_options`, yielding each
section's option pairs in order. -/
def gatherSections (gc : GlobalConfig) : List JValue → Except PyErr (List (String × JValue))
  | [] => .ok []
  | g :: rest => do
    let kvs ← sectionOptions gc g
    let restOpts ← gatherSections gc rest
    .ok (kvs ++ restOpts)

/-- `InstanceConfig.global_options`: pairs of every referenced global
section in listed order, then, if `iconfig.get("instance_name", None)` is
truthy, the final pair `("netbios name", instance_name)`. -/
def InstanceConfig.global_options (ic : InstanceConfig) :
    Except PyErr (List (String × JValue)) := do
  let gnamesV ← pyIndex ic.iconfig "globals"
  let gnames ← pyIter gnamesV
  let sectionOpts ← gatherSections ic.gconfig gnames
  let iname ← pyObjGet ic.iconfig "instance_name" .null
  .ok (sectionOpts ++ (if truthy iname then [("netbios name", iname)] else []))

/-- A share view: `ShareConfig` holds the aggregate and the share name. -/
structure ShareConfig where
  gconfig : GlobalConfig
  name : JValue

/-- `InstanceConfig.shares`: one `ShareConfig` per name in
`iconfig.get("shares", [])`. -/
def InstanceConfig.shares (ic : InstanceConfig) :
    Except PyErr (List ShareConfig) := do
  let snamesV ← pyObjGet ic.iconfig "shares" (.arr [])
  let snames ← pyIter snamesV
  .ok (snames.map (fun sname => ⟨ic.gconfig, sname⟩))

/-- `ShareConfig.share_options`:
`self.gconfig.data["shares"][self.name].get("options", {}).items()`. -/
def ShareConfig.share_options (sc : ShareConfig) :
    Except PyErr (List (String × JValue)) := do
  let sharesV ← pyIndexD sc.gconfig.data "shares"
  let share_section ← pyIndexJ sharesV sc.name
  let opts ← pyObjGet share_section "options" (.obj [])
  pyItems opts

/-- The integrality check applied to a raw uid/gid field:
`if self._x is not None: if not isinstance(self._x, int): raise
ValueError("invalid x value")`.  Python's `bool` passes `isinstance(_, int)`. -/
def idFieldCheck (v : JValue) (what : String) : Except PyErr Unit :=
  match v with
  | .null => .ok ()
  | .int _ => .ok ()
  | .bool _ => .ok ()
  | _ => .error (.invalidValue ("invalid " ++ what ++ " value"))

/-- A constructed `GroupEntry`.  Note: the source's `__init__` receives a
position argument `num` but never assigns `self.entry_num`; accordingly the
structure has no `entry_num` field, and the `gid` property's fallback
branch, which reads `self.entry_num`, raises `AttributeError`. -/
structure GroupEntry where
  iconfig : InstanceConfig
  groupname : JValue
  _gid : JValue

/-- `GroupEntry.__init__`: reads `grec["name"]` and `grec.get("gid")`,
validates integrality of the gid, and ignores its `num` argument (the
source never stores it). -/
def GroupEntry.mk? (ic : InstanceConfig) (grec : JValue) (_num : Nat) :
    Except PyErr GroupEntry := do
  let groupname ← pyIndex grec "name"
  let gidv ← pyObjGet grec "gid" .null
  idFieldCheck gidv "gid"
  .ok { iconfig := ic, groupname := groupname, _gid := gidv }

/-- The `GroupEntry.gid` property: the raw `_gid` when truthy; otherwise it
evaluates `self.iconfig.gid_base() + self.entry_num`, and the read of
`self.entry_num` raises `AttributeError` because `__init__` never assigned
that attribute. -/
def GroupEntry.gid (g : GroupEntry) : Except PyErr JValue :=
  if truthy g._gid then .ok g._gid
  else .error (.attributeError "entry_num")

/-- `GroupEntry.group_fields`: the 4-tuple
`(name, "x", str(gid), "")`; evaluating `self.gid` can raise. -/
def GroupEntry.group_fields (g : GroupEntry) :
    Except PyErr (JValue × String × String × String) := do
  let gid ← g.gid
  .ok (g.groupname, "x", pyStr gid, "")

/-- A constructed `UserEntry`, with the fields `__init__` assigns. -/
structure UserEntry where
  iconfig : InstanceConfig
  username : JValue
  entry_num : Nat
  _uid : JValue
  _gid : JValue
  _nt_passwd : String
  _plaintext_passwd : String

/-- `UserEntry.__init__`: reads `urec["name"]`, `urec.get("uid")`,
`urec.get("gid")`, stringifies `nt_hash` and `password`, stores the
position `num` as `entry_num`, then validates integrality of uid and gid
(in that order). -/
def UserEntry.mk? (ic : InstanceConfig) (urec : JValue) (num : Nat) :
    Except PyErr UserEntry := do
  let username ← pyIndex urec "name"
  let uidv ← pyObjGet urec "uid" .null
  let gidv ← pyObjGet urec "gid" .null
  let ntv ← pyObjGet urec "nt_hash" (.str "")
  let pwv ← pyObjGet urec "password" (.str "")
  idFieldCheck uidv "uid"
  idFieldCheck gidv "gid"
  .ok { iconfig := ic, username := username, entry_num := num,
        _uid := uidv, _gid := gidv,
        _nt_passwd := pyStr ntv, _plaintext_passwd := pyStr pwv }

/-- The `UserEntry.uid` property: the raw `_uid` when truthy, else
`self.iconfig.uid_base() + self.entry_num`. -/
def UserEntry.uid (u : UserEntry) : JValue :=
  if truthy u._uid then u._uid
  else .int (u.iconfig.uid_base + u.entry_num)

/-- The `UserEntry.gid` property: the raw `_gid` when truthy, else
`self.iconfig.gid_base() + self.entry_num`. -/
def UserEntry.gid (u : UserEntry) : JValue :=
  if truthy u._gid then u._gid
  else .int (u.iconfig.gid_base + u.entry_num)

/-- `UserEntry.passwd_fields`: the 7-tuple
`(name, "x", str(uid), str(gid), "", "/invalid", "/bin/false")`. -/
def UserEntry.passwd_fields (u : UserEntry) :
    JValue × String × String × String × String × String × String :=
  (u.username, "x", pyStr u.uid, pyStr u.gid, "", "/invalid", "/bin/false")

/-- `UserEntry.vgroup`: builds a "virtual" group from the user's name and
resolved gid, `GroupEntry(self.iconfig, dict(name=self.username,
gid=self.gid), 0)`. -/
def UserEntry.vgroup (u : UserEntry) : Except PyErr GroupEntry :=
  GroupEntry.mk? u.iconfig (.obj [("name", u.username), ("gid", u.gid)]) 0

/-- `InstanceConfig.users`: enumerate
`gconfig.data.get("users", {}).get("all_entries", {})` and construct a
`UserEntry` for each record with its position. -/
def InstanceConfig.users (ic : InstanceConfig) : Except PyErr (List UserEntry) := do
  let all_users ← pyObjGet (dGetD ic.gconfig.data "users" (.obj [])) "all_entries" (.obj [])
  let entries ← pyIter all_users
  entries.enum.mapM (fun p => UserEntry.mk? ic p.2 p.1)

/-- Membership test of a key in the `user_gids` dict (`key in d`), using
Python value equality on the keys. -/
def ugHas (m : List (JValue × UserEntry)) (k : JValue) : Bool :=
  m.any (fun p => jeq p.1 k)

/-- Insertion into the `user_gids` dict (`d[k] = v`): later duplicates
overwrite in place, new keys append (dict-comprehension semantics). -/
def ugSet (m : List (JValue × UserEntry)) (k : JValue) (v : UserEntry) :
    List (JValue × UserEntry) :=
  if ugHas m k then m.map (fun p => if jeq p.1 k then (k, v) else p)
  else m ++ [(k, v)]

/-- Deletion from the `user_gids` dict (`del d[k]`). -/
def ugDel (m : List (JValue × UserEntry)) (k : JValue) :
    List (JValue × UserEntry) :=
  m.filter (fun p => !jeq p.1 k)

/-- The attribute access `entry.gid()` performed by `InstanceConfig.groups`
on a raw group record.  `entry` is the raw JSON-derived value taken from
`all_entries` (a dict for well-formed configs) — no JSON-derived Python
value (dict, list, str, int, ...) has a `gid` attribute, so this access
raises `AttributeError` for every raw record. -/
def rawRecordGidCall (_entry : JValue) : Except PyErr JValue :=
  .error (.attributeError "gid")

/-- The explicit-groups loop of `InstanceConfig.groups`: for each raw
record (with its position), evaluate `entry.gid()`, drop a matching key
from `user_gids`, and yield `GroupEntry(self, entry, n)`.  Returns the
remaining `user_gids` map and the yielded groups. -/
def groupsLoop (ic : InstanceConfig) :
    List (JValue × UserEntry) → List (Nat × JValue) →
    Except PyErr (List (JValue × UserEntry) × List GroupEntry)
  | m, [] => .ok (m, [])
  | m, (n, entry) :: rest => do
    let egid ← rawRecordGidCall entry
    let m2 := if ugHas m egid then ugDel m egid else m
    let ge ← GroupEntry.mk? ic entry n
    let (mfin, ges) ← groupsLoop ic m2 rest
    .ok (mfin, ge :: ges)

/-- `InstanceConfig.groups`: build `user_gids = {u.gid: u for u in
self.users()}`, run the explicit-groups loop over
`gconfig.data.get("groups", {}).get("all_entries", {})`, then yield
`uentry.vgroup()` for every user remaining in `user_gids`, in the map's
iteration (insertion) order. -/
def InstanceConfig.groups (ic : InstanceConfig) : Except PyErr (List GroupEntry) := do
  let us ← ic.users
  let user_gids := us.foldl (fun m u => ugSet m u.gid u) ([] : List (JValue × UserEntry))
  let all_groups ← pyObjGet (dGetD ic.gconfig.data "groups" (.obj [])) "all_entries" (.obj [])
  let entries ← pyIter all_groups
  let (remaining, explicitGroups) ← groupsLoop ic user_gids entries.enum
  let vgroups ← remaining.mapM (fun p => p.2.vgroup)
  .ok (explicitGroups ++ vgroups)

/-- The Python `isinstance(v, int)` test on a JSON-derived value: true for
ints and bools (`bool` is a subclass of `int` in Python). -/
def isPyInt : JValue → Bool
  | .int _ => true
  | .bool _ => true
  | _ => false

/-- An empty aggregate store. -/
def gcEmpty : GlobalConfig := ⟨[]⟩

/-- An instance view over the empty store with an empty instance document. -/
def icEmpty : InstanceConfig := ⟨gcEmpty, .obj []⟩

/-- Store with one user record `alice` carrying no explicit ids. -/
def dataAlice : List (String × JValue) :=
  [("samba-container-config", .str "v0"),
   ("users", .obj [("all_entries", .arr [.obj [("name", .str "alice")]])])]

/-- Instance view over `dataAlice` (no group records). -/
def icAlice : InstanceConfig := ⟨⟨dataAlice⟩, .obj []⟩

/-- `dataAlice` extended with one explicit group record of gid 1000. -/
def dataAliceG : List (String × JValue) :=
  dataAlice ++
  [("groups", .obj [("all_entries", .arr [.obj [("name", .str "g"), ("gid", .int 1000)]])])]

/-- Instance view over `dataAliceG`. -/
def icAliceG : InstanceConfig := ⟨⟨dataAliceG⟩, .obj []⟩

/-- Group entry built from a record with no gid field. -/
def gNoGid : GroupEntry := ⟨icEmpty, .str "g", .null⟩

/-- Group entry built from a record with explicit gid 2000. -/
def gWithGid : GroupEntry := ⟨icEmpty, .str "g2", .int 2000⟩

/-- User entry built from `{name: alice, uid: 1234}` at position 2. -/
def uAlice : UserEntry := ⟨icEmpty, .str "alice", 2, .int 1234, .null, "", ""⟩

/-- The raw record behind `uAlice`. -/
def urecAlice : JValue := .obj [("name", .str "alice"), ("uid", .int 1234)]

/-- User entry with explicit uid 1234 and gid 5678 at position 0. -/
def uSam : UserEntry := ⟨icEmpty, .str "sam", 0, .int 1234, .int 5678, "", ""⟩

/-- Store with two global sections sharing the option name `workgroup`;
section `gA` also carries a `netbios name` option. -/
def gcTwoSections : GlobalConfig := ⟨[
  ("globals", .obj [
     ("gA", .obj [("options", .obj [("workgroup", .str "WG"), ("netbios name", .str "zzz")])]),
     ("gB", .obj [("options", .obj [("workgroup", .str "WG2")])])])]⟩

/-- Instance referencing sections `[gA, gB]` with instance name `inst1`. -/
def icTwoSections : InstanceConfig :=
  ⟨gcTwoSections, .obj [("globals", .arr [.str "gA", .str "gB"]),
                        ("instance_name", .str "inst1")]⟩

/-- First document of the merge example: `shares` maps `s1`, plus a key
`only1` the second document does not touch. -/
def d1Sample : List (String × JValue) :=
  [("samba-container-config", .str "v0"),
   ("shares", .obj [("s1", .int 1)]), ("only1", .int 5)]

/-- Second document of the merge example: re-declares `shares` with a
different nested mapping. -/
def d2Sample : List (String × JValue) :=
  [("samba-container-config", .str "v0"), ("shares", .obj [("s2", .int 2)])]

/-- The aggregate after loading `d1Sample` into an empty store. -/
def gcAfter1 : GlobalConfig := ⟨d1Sample⟩

/-- The aggregate after then loading `d2Sample`. -/
def gcAfter2 : GlobalConfig :=
  ⟨[("samba-container-config", .str "v0"),
    ("shares", .obj [("s2", .int 2)]), ("only1", .int 5)]⟩

/-- Store whose `configs`, `globals` and `shares` mappings miss the names
queried in the MissingKey witness. -/
def gcMissing : GlobalConfig := ⟨[
  ("configs", .obj [("other", .obj [])]),
  ("globals", .obj []),
  ("shares", .obj [])]⟩

/-- Instance over `gcMissing` referencing the absent section `gmissing`. -/
def icMissing : InstanceConfig := ⟨gcMissing, .obj [("globals", .arr [.str "gmissing"])]⟩

/-- Share view over `gcMissing` for the absent share `smissing`. -/
def scMissing : ShareConfig := ⟨gcMissing, .str "smissing"⟩

/-- A store with pre-existing content, for the atomicity witness. -/
def gcOld : GlobalConfig := ⟨[("old", .int 7)]⟩

lemma UserEntry.mk_inv (ic : InstanceConfig) (urec : JValue) (i : Nat) (u : UserEntry)
    (h : UserEntry.mk? ic urec i = .ok u) :
    u.iconfig = ic ∧ u.entry_num = i ∧
    pyObjGet urec "uid" .null = .ok u._uid ∧
    pyObjGet urec "gid" .null = .ok u._gid := by
  unfold UserEntry.mk? at h
  simp only [bind, Except.bind] at h
  split at h
  · exact absurd h (by simp)
  split at h
  · exact absurd h (by simp)
  rename_i uidv huid
  split at h
  · exact absurd h (by simp)
  rename_i gidv hgid
  split at h
  · exact absurd h (by simp)
  split at h
  · exact absurd h (by simp)
  split at h
  · exact absurd h (by simp)
  split at h
  · exact absurd h (by simp)
  cases h
  exact ⟨rfl, rfl, by simp [huid], by simp [hgid]⟩

lemma pyIndex_ok_obj {v : JValue} {k : String} {x : JValue}
    (h : pyIndex v k = .ok x) : ∃ kvs, v = .obj kvs := by
  cases v <;> simp [pyIndex] at h
  exact ⟨_, rfl⟩

lemma pyIndex_obj_inv {kvs : List (String × JValue)} {k : String} {x : JValue}
    (h : pyIndex (.obj kvs) k = .ok x) : dget kvs k = some x := by
  simp only [pyIndex] at h
  cases hd : dget kvs k
  · rw [hd] at h
    simp at h
  · rw [hd] at h
    simp at h
    rw [h]

lemma idFieldCheck_error {v : JValue} (what : String)
    (hnn : v ≠ .null) (hni : isPyInt v = false) :
    idFieldCheck v what = .error (.invalidValue ("invalid " ++ what ++ " value")) := by
  cases v <;> first
    | exact absurd rfl hnn
    | rfl
    | simp [isPyInt] at hni

lemma idFieldCheck_ok {v : JValue}
    (h : v = .null ∨ isPyInt v = true) (what : String) :
    idFieldCheck v what = .ok () := by
  cases v <;> first
    | rfl
    | · rcases h with h | h
        · cases h
        · simp [isPyInt] at h

lemma gatherSections_ok (gc : GlobalConfig) {gnames : List JValue}
    {opts : List (List (String × JValue))}
    (h : List.Forall₂ (fun g o => sectionOptions gc g = .ok o) gnames opts) :
    gatherSections gc gnames = .ok opts.flatten := by
  induction h with
  | nil => rfl
  | cons hrel hrest ih =>
    simp [gatherSections, bind, Except.bind, hrel, ih]

lemma gatherSections_error (gc : GlobalConfig) {pre : List JValue}
    {preopts : List (List (String × JValue))} (x : JValue) (rest : List JValue)
    (e : PyErr)
    (hpre : List.Forall₂ (fun g o => sectionOptions gc g = .ok o) pre preopts)
    (hx : sectionOptions gc x = .error e) :
    gatherSections gc (pre ++ x :: rest) = .error e := by
  induction hpre with
  | nil => simp [gatherSections, bind, Except.bind, hx]
  | cons hrel hrest ih =>
    simp [gatherSections, bind, Except.bind, hrel, ih]

lemma dget_dSet (d : List (String × JValue)) (k : String) (v : JValue) (q : String) :
    dget (dSet d k v) q = if q = k then some v else dget d q := by
  induction d with
  | nil =>
    by_cases hq : q = k
    · simp [dSet, dget, hq]
    · simp [dSet, dget, hq, Ne.symm hq]
  | cons kv rest ih =>
    obtain ⟨a, b⟩ := kv
    by_cases hak : a = k
    · subst hak
      by_cases hq : q = a
      · subst hq
        simp [dSet, dget]
      · simp [dSet, dget, hq, Ne.symm hq]
    · by_cases haq : a = q
      · subst haq
        simp [dSet, dget, hak]
      · simp [dSet, dget, hak, haq, ih]

lemma dget_none_of_not_mem (d : List (String × JValue)) (k : String)
    (h : k ∉ d.map Prod.fst) : dget d k = none := by
  induction d with
  | nil => rfl
  | cons kv rest ih =>
    obtain ⟨a, b⟩ := kv
    have h1 : ¬ (a = k) := by
      intro he
      exact h (by simp [he])
    have h2 : k ∉ rest.map Prod.fst := by
      intro hm
      exact h (by simp [hm])
    simp [dget, h1, ih h2]

lemma dget_dUpdate (d n : List (String × JValue)) (k : String)
    (hnd : (n.map Prod.fst).Nodup) :
    dget (dUpdate d n) k =
      match dget n k with
      | some v => some v
      | none => dget d k := by
  induction n generalizing d with
  | nil => simp [dUpdate, dget]
  | cons kv rest ih =>
    obtain ⟨a, b⟩ := kv
    simp only [List.map_cons, List.nodup_cons] at hnd
    have hupd : dUpdate d ((a, b) :: rest) = dUpdate (dSet d a b) rest := rfl
    rw [hupd, ih _ hnd.2]
    by_cases hk : k = a
    · subst hk
      have hrest : dget rest k = none := dget_none_of_not_mem _ _ hnd.1
      simp [hrest, dget, dget_dSet]
    · simp [dget, Ne.symm hk, dget_dSet, hk]

lemma loadState_ok_inv (gc gcx : GlobalConfig) (doc : List (String × JValue))
    (h : gc.loadState doc = (gcx, none)) : gcx.data = dUpdate gc.data doc := by
  unfold GlobalConfig.loadState at h
  split at h
  · cases h
  · split at h
    · cases h
      rfl
    · cases h
  · cases h

lemma load_ok_inv (gc gc2 : GlobalConfig) (doc : List (String × JValue))
    (h : gc.load doc = .ok gc2) : gc2.data = dUpdate gc.data doc := by
  unfold GlobalConfig.load at h
  cases hls : gc.loadState doc with
  | mk gcx oe =>
    rw [hls] at h
    cases oe with
    | none =>
      cases h
      exact loadState_ok_inv _ _ _ hls
    | some e => cases h

/-- C1: the claimed group-derivation algorithm does not hold of the code.
With one user `alice` (derived gid 1000) and no group records, `groups()`
does yield the virtual group named `alice` with gid 1000; but as soon as an
explicit group record exists — here `{name: g, gid: 1000}`, the very case
the claim says suppresses the virtual group — `groups()` raises
`AttributeError`, because the loop calls `entry.gid()` on the raw dict
record instead of the constructed `GroupEntry`. -/
theorem groups_raw_record_attribute_bug :
    icAlice.groups = .ok [⟨icAlice, .str "alice", .int 1000⟩]
    ∧ icAliceG.groups = .error (.attributeError "gid") :=
  ⟨rfl, rfl⟩

/-- C2: the explicit-nonzero-or-base-plus-position gid rule does not hold
of the code.  A group with explicit nonzero gid 2000 does resolve to 2000,
but a group record with no gid field, which the claim says resolves to
`base + position`, instead raises `AttributeError` when its gid is read,
because `GroupEntry.__init__` never assigns `self.entry_num` (its `num`
argument is unused). -/
theorem group_gid_entry_num_bug :
    GroupEntry.mk? icEmpty (.obj [("name", .str "g2"), ("gid", .int 2000)]) 3 = .ok gWithGid
    ∧ gWithGid.gid = .ok (.int 2000)
    ∧ GroupEntry.mk? icEmpty (.obj [("name", .str "g")]) 0 = .ok gNoGid
    ∧ gNoGid.gid = .error (.attributeError "entry_num") :=
  ⟨rfl, rfl, rfl, rfl⟩

/-- C3: for a successfully constructed user entry at position `i`: an
explicit integral nonzero uid resolves to itself; an absent uid, or a uid
of exactly 0, resolves to `uid_base + i`; the same holds for the gid with
`gid_base`. -/
theorem user_id_resolution (ic : InstanceConfig) (urec : JValue) (i : Nat) (u : UserEntry)
    (h : UserEntry.mk? ic urec i = .ok u) :
    (∀ U : Int, pyObjGet urec "uid" .null = .ok (.int U) → U ≠ 0 → u.uid = .int U)
    ∧ (pyObjGet urec "uid" .null = .ok .null → u.uid = .int (ic.uid_base + i))
    ∧ (pyObjGet urec "uid" .null = .ok (.int 0) → u.uid = .int (ic.uid_base + i))
    ∧ (∀ G : Int, pyObjGet urec "gid" .null = .ok (.int G) → G ≠ 0 → u.gid = .int G)
    ∧ (pyObjGet urec "gid" .null = .ok .null → u.gid = .int (ic.gid_base + i))
    ∧ (pyObjGet urec "gid" .null = .ok (.int 0) → u.gid = .int (ic.gid_base + i)) := by
  obtain ⟨hic, hnum, huid, hgid⟩ := UserEntry.mk_inv ic urec i u h
  refine ⟨?_, ?_, ?_, ?_, ?_, ?_⟩
  · intro U hU hne
    rw [hU] at huid
    have hu : u._uid = .int U := (Except.ok.inj huid).symm
    simp [UserEntry.uid, hu, truthy, hne]
  · intro hU
    rw [hU] at huid
    have hu : u._uid = .null := (Except.ok.inj huid).symm
    simp [UserEntry.uid, hu, truthy, hic, hnum]
  · intro hU
    rw [hU] at huid
    have hu : u._uid = .int 0 := (Except.ok.inj huid).symm
    simp [UserEntry.uid, hu, truthy, hic, hnum]
  · intro G hG hne
    rw [hG] at hgid
    have hu : u._gid = .int G := (Except.ok.inj hgid).symm
    simp [UserEntry.gid, hu, truthy, hne]
  · intro hG
    rw [hG] at hgid
    have hu : u._gid = .null := (Except.ok.inj hgid).symm
    simp [UserEntry.gid, hu, truthy, hic, hnum]
  · intro hG
    rw [hG] at hgid
    have hu : u._gid = .int 0 := (Except.ok.inj hgid).symm
    simp [UserEntry.gid, hu, truthy, hic, hnum]

/-- C3 witness: the record `{name: alice, uid: 1234}` at position 2 gets
uid 1234 (explicit) and gid 1002 (base 1000 plus position 2). -/
theorem user_id_resolution_witness :
    UserEntry.mk? icEmpty urecAlice 2 = .ok uAlice
    ∧ uAlice.uid = .int 1234 ∧ uAlice.gid = .int 1002 := by
  refine ⟨rfl, ?_, ?_⟩
  · exact (user_id_resolution icEmpty urecAlice 2 uAlice rfl).1 1234 rfl (by decide)
  · exact (user_id_resolution icEmpty urecAlice 2 uAlice rfl).2.2.2.2.1 rfl

/-- C4: when the referenced global sections all resolve, `global_options`
yields the concatenation of their option pairs, sections in listed order
and each section in stored order with no deduplication, followed by the
pair `("netbios name", instance_name)` exactly when the configured
instance name is truthy. -/
theorem global_options_composition
    (ic : InstanceConfig) (gv : JValue) (gnames : List JValue)
    (opts : List (List (String × JValue))) (iname : JValue)
    (hg : pyIndex ic.iconfig "globals" = .ok gv)
    (hiter : pyIter gv = .ok gnames)
    (hsec : List.Forall₂ (fun g o => sectionOptions ic.gconfig g = .ok o) gnames opts)
    (hname : pyObjGet ic.iconfig "instance_name" .null = .ok iname) :
    ic.global_options =
      .ok (opts.flatten ++ (if truthy iname then [("netbios name", iname)] else [])) := by
  simp [InstanceConfig.global_options, bind, Except.bind, hg, hiter, hname,
    gatherSections_ok ic.gconfig hsec]

/-- C4 witness: sections `[gA, gB]` with a shared `workgroup` key and a
`netbios name` key in `gA`, plus instance name `inst1`: all pairs are
yielded in order, nothing deduplicated, and the synthetic netbios pair
comes last. -/
theorem global_options_composition_witness :
    icTwoSections.global_options =
      .ok [("workgroup", .str "WG"), ("netbios name", .str "zzz"),
           ("workgroup", .str "WG2"), ("netbios name", .str "inst1")] := by
  have h := global_options_composition icTwoSections (.arr [.str "gA", .str "gB"])
      [.str "gA", .str "gB"]
      [[("workgroup", .str "WG"), ("netbios name", .str "zzz")], [("workgroup", .str "WG2")]]
      (.str "inst1") rfl rfl
      (List.Forall₂.cons rfl (List.Forall₂.cons rfl List.Forall₂.nil)) rfl
  simpa using h

/-- C5: `load` fails with the invalid-config error exactly when the
document has no `samba-container-config` entry whose value is an accepted
version string (the accepted set is `_VALID_VERSIONS = [v0]`); a document
whose marker is `v0` is accepted and its keys merged into the store. -/
theorem load_version_gate (gc : GlobalConfig) (doc : List (String × JValue)) :
    ((∃ msg, gc.load doc = .error (.invalidConfig msg)) ↔
       ∀ s, s ∈ _VALID_VERSIONS → dget doc "samba-container-config" ≠ some (.str s))
    ∧ (dget doc "samba-container-config" = some (.str "v0") →
       gc.load doc = .ok ⟨dUpdate gc.data doc⟩) := by
  constructor
  · unfold GlobalConfig.load GlobalConfig.loadState dGetD
    cases hd : dget doc "samba-container-config" with
    | none => simp [_VALID_VERSIONS]
    | some v =>
      cases v with
      | null => simp [_VALID_VERSIONS]
      | str s =>
        by_cases hs : s = "v0"
        · subst hs
          simp [_VALID_VERSIONS]
        · simp [_VALID_VERSIONS, hs]
      | bool b => simp [_VALID_VERSIONS]
      | int n => simp [_VALID_VERSIONS]
      | arr xs => simp [_VALID_VERSIONS]
      | obj kvs => simp [_VALID_VERSIONS]
  · intro h
    unfold GlobalConfig.load GlobalConfig.loadState dGetD
    rw [h]
    simp [_VALID_VERSIONS]

/-- C5 witness: a `v0` document is accepted and merged; a document without
the marker key fails with the invalid-config error. -/
theorem load_version_gate_witness :
    (⟨[]⟩ : GlobalConfig).load [("samba-container-config", .str "v0"), ("x", .int 1)]
      = .ok ⟨[("samba-container-config", .str "v0"), ("x", .int 1)]⟩
    ∧ (∃ msg, (⟨[]⟩ : GlobalConfig).load [("y", .int 2)] = .error (.invalidConfig msg)) := by
  constructor
  · exact (load_version_gate ⟨[]⟩ [("samba-container-config", .str "v0"), ("x", .int 1)]).2 rfl
  · exact (load_version_gate ⟨[]⟩ [("y", .int 2)]).1.mpr (by
      intro s hs he
      simp [dget] at he)

/-- C6: loading two valid documents in sequence is a shallow top-level
merge: a key of the second document fully replaces the value the store had
for it, and any other key keeps the value it had after the first load
(in particular, keys only the first document set are retained). -/
theorem load_shallow_merge (gc gc1 gc2 : GlobalConfig)
    (d1 d2 : List (String × JValue)) (k : String)
    (h1 : gc.load d1 = .ok gc1) (h2 : gc1.load d2 = .ok gc2)
    (hnd1 : (d1.map Prod.fst).Nodup) (hnd2 : (d2.map Prod.fst).Nodup) :
    (dget gc2.data k =
      match dget d2 k with
      | some v => some v
      | none => dget gc1.data k)
    ∧ (dget gc1.data k =
      match dget d1 k with
      | some v => some v
      | none => dget gc.data k) := by
  constructor
  · rw [load_ok_inv _ _ _ h2]
    exact dget_dUpdate _ _ _ hnd2
  · rw [load_ok_inv _ _ _ h1]
    exact dget_dUpdate _ _ _ hnd1

/-- C6 witness: after loading `d1Sample` then `d2Sample`, the re-declared
`shares` key holds exactly the second document's nested mapping (`s1` is
gone, so the merge is not deep), while `only1` keeps the first document's
value. -/
theorem load_shallow_merge_witness :
    dget gcAfter2.data "shares" = some (.obj [("s2", .int 2)])
    ∧ dget gcAfter2.data "only1" = some (.int 5) := by
  constructor
  · exact (load_shallow_merge ⟨[]⟩ gcAfter1 gcAfter2 d1Sample d2Sample "shares"
      rfl rfl (by decide) (by decide)).1
  · exact (load_shallow_merge ⟨[]⟩ gcAfter1 gcAfter2 d1Sample d2Sample "only1"
      rfl rfl (by decide) (by decide)).1

/-- C7: a raw user or group record whose uid or gid field is present but
not integral fails with the invalid-value error at construction time,
while records whose id fields are absent or integral construct
successfully (so id validation is not deferred to the id query). -/
theorem id_field_invalid_value
    (ic : InstanceConfig) (urec grec : JValue) (i j : Nat) (nm gnm : JValue)
    (hnm : pyIndex urec "name" = .ok nm)
    (hgn : pyIndex grec "name" = .ok gnm) :
    (∀ uv, pyObjGet urec "uid" .null = .ok uv → uv ≠ .null → isPyInt uv = false →
       UserEntry.mk? ic urec i = .error (.invalidValue "invalid uid value"))
    ∧ (∀ uv gv, pyObjGet urec "uid" .null = .ok uv → (uv = .null ∨ isPyInt uv = true) →
       pyObjGet urec "gid" .null = .ok gv → gv ≠ .null → isPyInt gv = false →
       UserEntry.mk? ic urec i = .error (.invalidValue "invalid gid value"))
    ∧ (∀ uv gv, pyObjGet urec "uid" .null = .ok uv → (uv = .null ∨ isPyInt uv = true) →
       pyObjGet urec "gid" .null = .ok gv → (gv = .null ∨ isPyInt gv = true) →
       ∃ u, UserEntry.mk? ic urec i = .ok u)
    ∧ (∀ gv, pyObjGet grec "gid" .null = .ok gv → gv ≠ .null → isPyInt gv = false →
       GroupEntry.mk? ic grec j = .error (.invalidValue "invalid gid value"))
    ∧ (∀ gv, pyObjGet grec "gid" .null = .ok gv → (gv = .null ∨ isPyInt gv = true) →
       ∃ g, GroupEntry.mk? ic grec j = .ok g) := by
  obtain ⟨kvs, rfl⟩ := pyIndex_ok_obj hnm
  obtain ⟨gkvs, rfl⟩ := pyIndex_ok_obj hgn
  have hnm2 := pyIndex_obj_inv hnm
  have hgn2 := pyIndex_obj_inv hgn
  refine ⟨?_, ?_, ?_, ?_, ?_⟩
  · intro uv huv hnn hni
    have huv2 : dGetD kvs "uid" .null = uv := Except.ok.inj huv
    simp [UserEntry.mk?, bind, Except.bind, pyIndex, hnm2, pyObjGet, huv2,
      idFieldCheck_error "uid" hnn hni]
  · intro uv gv huv huvok hgv hnn hni
    have huv2 : dGetD kvs "uid" .null = uv := Except.ok.inj huv
    have hgv2 : dGetD kvs "gid" .null = gv := Except.ok.inj hgv
    simp [UserEntry.mk?, bind, Except.bind, pyIndex, hnm2, pyObjGet, huv2, hgv2,
      idFieldCheck_ok huvok "uid", idFieldCheck_error "gid" hnn hni]
  · intro uv gv huv huvok hgv hgvok
    have huv2 : dGetD kvs "uid" .null = uv := Except.ok.inj huv
    have hgv2 : dGetD kvs "gid" .null = gv := Except.ok.inj hgv
    refine ⟨⟨ic, nm, i, uv, gv, pyStr (dGetD kvs "nt_hash" (.str "")),
      pyStr (dGetD kvs "password" (.str ""))⟩, ?_⟩
    simp [UserEntry.mk?, bind, Except.bind, pyIndex, hnm2, pyObjGet, huv2, hgv2,
      idFieldCheck_ok huvok "uid", idFieldCheck_ok hgvok "gid"]
  · intro gv hgv hnn hni
    have hgv2 : dGetD gkvs "gid" .null = gv := Except.ok.inj hgv
    simp [GroupEntry.mk?, bind, Except.bind, pyIndex, hgn2, pyObjGet, hgv2,
      idFieldCheck_error "gid" hnn hni]
  · intro gv hgv hgvok
    have hgv2 : dGetD gkvs "gid" .null = gv := Except.ok.inj hgv
    refine ⟨⟨ic, gnm, gv⟩, ?_⟩
    simp [GroupEntry.mk?, bind, Except.bind, pyIndex, hgn2, pyObjGet, hgv2,
      idFieldCheck_ok hgvok "gid"]

/-- C7 witness: `{name: bob, uid: "abc"}` fails with the invalid-uid
error, `{name: grp, gid: "xyz"}` with the invalid-gid error, while
`{name: bob, uid: 7}` constructs successfully. -/
theorem id_field_invalid_value_witness :
    UserEntry.mk? icEmpty (.obj [("name", .str "bob"), ("uid", .str "abc")]) 0
      = .error (.invalidValue "invalid uid value")
    ∧ GroupEntry.mk? icEmpty (.obj [("name", .str "grp"), ("gid", .str "xyz")]) 1
      = .error (.invalidValue "invalid gid value")
    ∧ (∃ u, UserEntry.mk? icEmpty (.obj [("name", .str "bob"), ("uid", .int 7)]) 0 = .ok u) := by
  refine ⟨?_, ?_, ?_⟩
  · exact (id_field_invalid_value icEmpty (.obj [("name", .str "bob"), ("uid", .str "abc")])
      (.obj [("name", .str "grp"), ("gid", .str "xyz")]) 0 1 (.str "bob") (.str "grp")
      rfl rfl).1 (.str "abc") rfl (fun h => JValue.noConfusion h) rfl
  · exact (id_field_invalid_value icEmpty (.obj [("name", .str "bob"), ("uid", .str "abc")])
      (.obj [("name", .str "grp"), ("gid", .str "xyz")]) 0 1 (.str "bob") (.str "grp")
      rfl rfl).2.2.2.1 (.str "xyz") rfl (fun h => JValue.noConfusion h) rfl
  · exact (id_field_invalid_value icEmpty (.obj [("name", .str "bob"), ("uid", .int 7)])
      (.obj [("name", .str "grp"), ("gid", .str "xyz")]) 0 1 (.str "bob") (.str "grp")
      rfl rfl).2.2.1 (.int 7) .null rfl (Or.inr rfl) rfl (Or.inl rfl)

/-- C8: querying an instance identifier absent from the `configs` mapping,
iterating global options when a referenced section name is absent from the
`globals` mapping, and asking for share options when the share name is
absent from the `shares` mapping, each fail with a `KeyError` naming the
missing key. -/
theorem missing_key_errors
    (gc8 : GlobalConfig) (cfgs : List (String × JValue)) (ident : String)
    (ic8 : InstanceConfig) (gv : JValue) (pre : List JValue)
    (preopts : List (List (String × JValue))) (g : String) (rest : List JValue)
    (gsecs : List (String × JValue))
    (sc8 : ShareConfig) (shs : List (String × JValue)) (sname : String)
    (hc : dget gc8.data "configs" = some (.obj cfgs))
    (hid : dget cfgs ident = none)
    (hg : pyIndex ic8.iconfig "globals" = .ok gv)
    (hiter : pyIter gv = .ok (pre ++ .str g :: rest))
    (hpre : List.Forall₂ (fun s o => sectionOptions ic8.gconfig s = .ok o) pre preopts)
    (hgl : dget ic8.gconfig.data "globals" = some (.obj gsecs))
    (habs : dget gsecs g = none)
    (hsh : dget sc8.gconfig.data "shares" = some (.obj shs))
    (hn : sc8.name = .str sname)
    (habs2 : dget shs sname = none) :
    gc8.get ident = .error (.keyError ident)
    ∧ ic8.global_options = .error (.keyError g)
    ∧ sc8.share_options = .error (.keyError sname) := by
  refine ⟨?_, ?_, ?_⟩
  · simp [GlobalConfig.get, bind, Except.bind, pyIndexD, hc, pyIndex, hid]
  · have hx : sectionOptions ic8.gconfig (.str g) = .error (.keyError g) := by
      simp [sectionOptions, bind, Except.bind, pyIndexD, hgl, pyIndexJ, habs]
    simp [InstanceConfig.global_options, bind, Except.bind, hg, hiter,
      gatherSections_error ic8.gconfig (.str g) rest (.keyError g) hpre hx]
  · simp [ShareConfig.share_options, bind, Except.bind, pyIndexD, hsh, hn,
      pyIndexJ, habs2]

/-- C8 witness: over `gcMissing`, looking up the instance `nosuch`, the
global section `gmissing` and the share `smissing` each fail with the
`KeyError` naming that key. -/
theorem missing_key_errors_witness :
    gcMissing.get "nosuch" = .error (.keyError "nosuch")
    ∧ icMissing.global_options = .error (.keyError "gmissing")
    ∧ scMissing.share_options = .error (.keyError "smissing") :=
  missing_key_errors gcMissing [("other", .obj [])] "nosuch" icMissing
    (.arr [.str "gmissing"]) [] [] "gmissing" [] []
    scMissing [] "smissing"
    rfl rfl rfl rfl List.Forall₂.nil rfl rfl rfl rfl rfl

/-- C9: the user field projection is the fixed 7-tuple with stringified
ids, shown both in general and on a concrete entry; but the group half of
the claim fails on the code: a successfully constructed group entry whose
gid field is absent cannot render its 4-tuple — `group_fields` raises
`AttributeError` through the gid property instead of returning
`(name, "x", str(gid), "")`.  A group with an explicit nonzero gid does
render the claimed 4-tuple with an empty members field. -/
theorem field_projection_tuples :
    (∀ u : UserEntry, u.passwd_fields
      = (u.username, "x", pyStr u.uid, pyStr u.gid, "", "/invalid", "/bin/false"))
    ∧ UserEntry.mk? icEmpty
        (.obj [("name", .str "sam"), ("uid", .int 1234), ("gid", .int 5678)]) 0 = .ok uSam
    ∧ uSam.passwd_fields = (.str "sam", "x", "1234", "5678", "", "/invalid", "/bin/false")
    ∧ gWithGid.group_fields = .ok (.str "g2", "x", "2000", "")
    ∧ GroupEntry.mk? icEmpty (.obj [("name", .str "gn")]) 0 = .ok ⟨icEmpty, .str "gn", .null⟩
    ∧ (⟨icEmpty, .str "gn", .null⟩ : GroupEntry).group_fields
      = .error (.attributeError "entry_num") :=
  ⟨fun _ => rfl, rfl, rfl, rfl, rfl, rfl⟩

/-- C10: `load` is atomic with respect to version validation: whenever the
call raises, the store it leaves behind is exactly the store it started
with — the version checks precede the merge, so a failed document
contributes nothing. -/
theorem load_failure_atomic (gc gc2 : GlobalConfig) (doc : List (String × JValue))
    (e : PyErr) (h : gc.loadState doc = (gc2, some e)) : gc2 = gc := by
  unfold GlobalConfig.loadState at h
  split at h
  · cases h
    rfl
  · split at h
    · cases h
    · cases h
      rfl
  · cases h
    rfl

/-- C10 witness: loading a document with the unrecognized version `v9`
into a store with prior content fails and leaves the store unchanged. -/
theorem load_failure_atomic_witness :
    gcOld.loadState [("samba-container-config", .str "v9")]
      = (gcOld, some (.invalidConfig "unknown version"))
    ∧ gcOld = gcOld :=
  ⟨rfl, load_failure_atomic gcOld gcOld [("samba-container-config", .str "v9")]
    (.invalidConfig "unknown version") rfl⟩
